import Mathlib

/-!
Verification development for the `SocketManager` websocket connection
manager (translated from `ts/textsecure/SocketManager.ts`).

The manager owns one authenticated and one unauthenticated websocket
connection process, reconnects the authenticated one with backoff on
close or transient failure, buffers inbound requests until a handler is
registered, and exposes a fetch-style request API.

The embedding below is a shallow translation of the manager state and of
the code paths the properties refer to.  Asynchronous continuations (the
success, failure and close continuations of a connection attempt) are
modelled as explicit functions on the manager state, and externally
observable effects (events emitted, transport connections opened,
requests delivered to handlers) are returned alongside the new state.
Fields of the class that no modelled code path reads or writes (the
backoff step, the navigator-offline flag, the proxy agent cache, the
rotation timer handle, the reconnect abort controller) are omitted from
the state record.
-/

namespace SocketManagerSpec

/-- The `SocketStatus` from `types/SocketStatus` (CLOSED / CONNECTING / OPEN). -/
inductive SocketStatus
  | CLOSED
  | CONNECTING
  | OPEN
deriving DecidableEq

/-- The `WebAPICredentials`: a username and password pair. -/
structure WebAPICredentials where
  username : String
  password : String
deriving DecidableEq

/-- Identity of an `AbortableProcess` instance (reference identity of the
process object in the source, modelled as a number). -/
abbrev ProcId := Nat

/-- Identity of a registered `IRequestHandler`. -/
abbrev HandlerId := Nat

/-- An opaque `IncomingWebSocketRequest` pushed by the server. -/
abbrev IncomingRequest := Nat

/-- Phase of a connection process: the attempt is still in flight, or its
result promise has resolved with a live connected resource. -/
inductive ProcPhase
  | connecting
  | connected
deriving DecidableEq

/-- The authenticated slot of the manager: the stored process together
with its phase. -/
structure AuthProc where
  id : ProcId
  phase : ProcPhase
deriving DecidableEq

/-- The mutable fields of the `SocketManager` class that the modelled
code paths touch, together with `pendingConnects`: the queue of
`authenticate` invocations currently suspended at the
`await this.getProxyAgent()` expression (line 352), i.e. calls that have
already stored their credentials and set status CONNECTING (lines 339
and 346) but have not yet aborted and replaced the stored process
(lines 366 to 368).  The awaits all resume in call order, so the queue
is FIFO. -/
structure SMState where
  authenticated : Option AuthProc
  unauthenticated : Option ProcId
  credentials : Option WebAPICredentials
  status : SocketStatus
  requestHandlers : List HandlerId
  incomingRequestQueue : List IncomingRequest
  privIsOnline : Option Bool
  isRemotelyExpired : Bool
  pendingConnects : List ProcId
deriving DecidableEq

/-- Field initializers of the class: no processes, no credentials,
status CLOSED, empty handler set and queue, online flag undefined,
not remotely expired. -/
def initialState : SMState :=
  { authenticated := none
    unauthenticated := none
    credentials := none
    status := SocketStatus.CLOSED
    requestHandlers := []
    incomingRequestQueue := []
    privIsOnline := none
    isRemotelyExpired := false
    pendingConnects := [] }

/-- Events the manager emits (`statusChange`, `online`, `offline`,
`authError`). -/
inductive SMEvent
  | statusChange
  | online
  | offline
  | authError (code : Int)
deriving DecidableEq

/-- The two websocket channels. -/
inductive Channel
  | authenticated
  | unauthenticated
deriving DecidableEq

/-- Externally observable effects of the modelled code paths: opening a
transport-level connection on a channel, or delivering an inbound
request to a registered handler. -/
inductive SMAction
  | openConnection (channel : Channel)
  | deliver (handler : HandlerId) (req : IncomingRequest)
deriving DecidableEq

/-- The `setStatus` (private): records the new status when it changed,
emits `statusChange`, and on a transition to OPEN while `privIsOnline`
is not already `true` (undefined or `false` are both falsy) sets the
flag and emits `online`. -/
def setStatus (st : SMState) (s : SocketStatus) : SMState × List SMEvent :=
  if st.status = s then (st, [])
  else
    let st1 := { st with status := s }
    if s = SocketStatus.OPEN ∧ st1.privIsOnline ≠ some true then
      ({ st1 with privIsOnline := some true },
       [SMEvent.statusChange, SMEvent.online])
    else (st1, [SMEvent.statusChange])

/-- Whether `process` is the process currently stored in the
authenticated slot (the `this.authenticated !== process` guards compare
object identity). -/
def isCurrentAuth (st : SMState) (process : ProcId) : Bool :=
  match st.authenticated with
  | some ap => ap.id == process
  | none => false

/-- The `dropAuthenticated` (private): a no-op unless `process` is the
currently stored authenticated process; otherwise clears the incoming
request queue, empties the authenticated slot and sets status CLOSED. -/
def dropAuthenticated (st : SMState) (process : ProcId) :
    SMState × List SMEvent :=
  if isCurrentAuth st process then
    setStatus
      { st with incomingRequestQueue := [], authenticated := none }
      SocketStatus.CLOSED
  else (st, [])

/-- The `dropUnauthenticated` (private): a no-op unless `process` is the
currently stored unauthenticated process; otherwise empties the slot
(and clears the rotation timer, which is not part of the model). -/
def dropUnauthenticated (st : SMState) (process : ProcId) : SMState :=
  if st.unauthenticated = some process then
    { st with unauthenticated := none }
  else st

/-- A connection failure: an `HTTPError` carrying an HTTP-style status
code, or any other error value. -/
inductive ConnectionError
  | http (code : Int)
  | generic
deriving DecidableEq

/-- Whether the stored credentials exist and equal `c` field by field
(the `this.credentials.username === username && … password === password`
comparison in `authenticate`). -/
def sameStoredCredentials (st : SMState) (c : WebAPICredentials) : Bool :=
  match st.credentials with
  | some stored =>
      stored.username == c.username && stored.password == c.password
  | none => false

/-- Lines 328 to 335 of `authenticate`: awaiting the result of the
already existing authenticated process inside a try block whose catch
clause only logs, so the call returns normally whether the awaited
result succeeded or failed. -/
def awaitExistingAuthenticated (result : Except ConnectionError Unit) :
    Except ConnectionError Unit :=
  match result with
  | Except.ok _ => Except.ok ()
  | Except.error _ => Except.ok ()

/-- How a call to `authenticate` returned. -/
inductive AuthenticateOutcome
  | expired
  | emptyCredentials
  | awaitExisting (p : ProcId)
  | started (p : ProcId)
deriving DecidableEq

structure AuthenticateResult where
  outcome : AuthenticateOutcome
  state : SMState
  events : List SMEvent
  actions : List SMAction
deriving DecidableEq

/-- The connect branch of `authenticate` up to its suspension: store the
new credentials (line 339), set status CONNECTING (line 346), and
suspend at `await this.getProxyAgent()` (line 352) — recorded by
appending the attempt to `pendingConnects`.  The previous process is
NOT yet aborted or replaced here: that happens only when the await
resumes (`authenticateResume`, lines 366 to 368), so between the two the
old process — possibly a connected one — still occupies the slot while
the status already reads CONNECTING. -/
def authenticateStartConnect (st : SMState) (credentials : WebAPICredentials)
    (newId : ProcId) : AuthenticateResult :=
  let st1 := { st with credentials := some credentials }
  let stEv := setStatus st1 SocketStatus.CONNECTING
  let st2 := { stEv.1 with pendingConnects := stEv.1.pendingConnects ++ [newId] }
  { outcome := AuthenticateOutcome.started newId
    state := st2
    events := stEv.2
    actions := [] }

/-- Resumption of the oldest suspended `authenticate` call after its
`await this.getProxyAgent()` resolves: `connectResource` opens the
websocket connection (one transport-level connect), the previous
authenticated process is aborted (line 366) and the new one is stored
(line 368, phase connecting).  The status is not touched here — it was
set to CONNECTING before the suspension and may have changed since. -/
def authenticateResume (st : SMState) : SMState × List SMAction :=
  match st.pendingConnects with
  | [] => (st, [])
  | newId :: rest =>
      ({ st with
           authenticated := some ⟨newId, ProcPhase.connecting⟩
           pendingConnects := rest },
       [SMAction.openConnection Channel.authenticated])

/-- The `authenticate(credentials)` up to its first suspension on the new
connection attempt.  Throws (outcome `expired`) if remotely expired;
returns doing nothing if both username and password are empty; if the
credentials equal the stored ones and an authenticated process exists,
awaits that process instead of connecting; otherwise connects anew.
`newId` is the identity of the process a connect would create. -/
def authenticate (st : SMState) (credentials : WebAPICredentials)
    (newId : ProcId) : AuthenticateResult :=
  if st.isRemotelyExpired then
    { outcome := AuthenticateOutcome.expired, state := st
      events := [], actions := [] }
  else if credentials.username = "" ∧ credentials.password = "" then
    { outcome := AuthenticateOutcome.emptyCredentials, state := st
      events := [], actions := [] }
  else if sameStoredCredentials st credentials ∧ st.authenticated.isSome then
    { outcome :=
        AuthenticateOutcome.awaitExisting ((st.authenticated.map AuthProc.id).getD 0)
      state := st, events := [], actions := [] }
  else authenticateStartConnect st credentials newId

/-- Entry check of the `reconnect` helper closure inside `authenticate`
(lines 370 to 374): when remotely expired it returns before arming the
backoff timer, so a reconnect is scheduled exactly when the manager is
not remotely expired. -/
def reconnectSchedules (st : SMState) : Bool :=
  !st.isRemotelyExpired

/-- How the `reconnect` helper closure proceeds once it runs. -/
inductive ReconnectOutcome
  | expired
  | alreadyConnecting
  | missingCredentials
  | reauthenticate
deriving DecidableEq

/-- The `reconnect` helper closure (lines 370 to 413): returns at once
when remotely expired; after the backoff sleep returns if an
authenticated process reappeared; asserts that credentials are stored;
otherwise re-invokes `authenticate` with the stored credentials.  The
returned action list contains every transport-level connection the run
opens. -/
def reconnectHelper (st : SMState) (newId : ProcId) :
    ReconnectOutcome × List SMAction :=
  if st.isRemotelyExpired then (ReconnectOutcome.expired, [])
  else if st.authenticated.isSome then (ReconnectOutcome.alreadyConnecting, [])
  else
    match st.credentials with
    | some c => (ReconnectOutcome.reauthenticate, (authenticate st c newId).actions)
    | none => (ReconnectOutcome.missingCredentials, [])

/-- Outcome of the failure continuation of `authenticate`. -/
structure FailureOutcome where
  state : SMState
  events : List SMEvent
  reconnectsScheduled : Nat
deriving DecidableEq

/-- The catch branch of `authenticate` (lines 419 to 453): if the failed
process has been superseded, return; otherwise drop it, and classify the
error: 401 or 403 emits `authError` and stops; a code outside 500..599
and different from -1 stops silently; code -1 with the online flag not
already `false` records offline and emits `offline`; in the remaining
cases (-1 and 5xx codes, and non-HTTP errors) `reconnect()` is invoked,
which schedules a reconnect unless remotely expired. -/
def authenticateOnFailure (st : SMState) (process : ProcId)
    (error : ConnectionError) : FailureOutcome :=
  if !isCurrentAuth st process then
    { state := st, events := [], reconnectsScheduled := 0 }
  else
    let dropped := dropAuthenticated st process
    let st1 := dropped.1
    let reconnects := if reconnectSchedules st1 then 1 else 0
    match error with
    | ConnectionError.http code =>
        if code = 401 ∨ code = 403 then
          { state := st1, events := dropped.2 ++ [SMEvent.authError code]
            reconnectsScheduled := 0 }
        else if ¬(500 ≤ code ∧ code ≤ 599) ∧ code ≠ -1 then
          { state := st1, events := dropped.2, reconnectsScheduled := 0 }
        else if code = -1 ∧ st1.privIsOnline ≠ some false then
          { state := { st1 with privIsOnline := some false }
            events := dropped.2 ++ [SMEvent.offline]
            reconnectsScheduled := reconnects }
        else
          { state := st1, events := dropped.2
            reconnectsScheduled := reconnects }
    | ConnectionError.generic =>
        { state := st1, events := dropped.2
          reconnectsScheduled := reconnects }

/-- The success continuation of `authenticate` (lines 415 to 461): the
result promise of the process resolved with a live resource, so status
becomes OPEN and the backoff resets.  A process that was superseded was
aborted when replaced or dropped, and an aborted process rejects instead
of resolving, so this continuation runs only while the process is still
the one stored in the slot and still connecting. -/
def applyAuthSuccess (st : SMState) (process : ProcId) : SMState × List SMEvent :=
  if st.authenticated = some ⟨process, ProcPhase.connecting⟩ then
    setStatus { st with authenticated := some ⟨process, ProcPhase.connected⟩ }
      SocketStatus.OPEN
  else (st, [])

/-- The close listener installed on the connected authenticated resource
(lines 462 to 484): ignores the event when the process has been
superseded; otherwise drops the process, returns silently on close code
3000 (intentional disconnect) or 4409 (connected on another device), and
invokes `reconnect()` for every other code, scheduling a reconnect
unless remotely expired. -/
def authenticateOnClose (st : SMState) (process : ProcId) (code : Int) :
    FailureOutcome :=
  if !isCurrentAuth st process then
    { state := st, events := [], reconnectsScheduled := 0 }
  else
    let dropped := dropAuthenticated st process
    let st1 := dropped.1
    if code = 3000 then
      { state := st1, events := dropped.2, reconnectsScheduled := 0 }
    else if code = 4409 then
      { state := st1, events := dropped.2, reconnectsScheduled := 0 }
    else
      { state := st1, events := dropped.2
        reconnectsScheduled := if reconnectSchedules st1 then 1 else 0 }

/-- How a call to `getUnauthenticatedResource` returned. -/
inductive UnauthOutcome
  | awaitExisting (p : ProcId)
  | expired
  | started (p : ProcId)
deriving DecidableEq

structure UnauthResult where
  outcome : UnauthOutcome
  state : SMState
  actions : List SMAction
deriving DecidableEq

/-- The `getUnauthenticatedResource` (lines 762 to 830): when an
unauthenticated process is already stored, its result is returned at
once — before the remote-expiry check.  With no stored process, the call
throws when remotely expired, and otherwise opens a new transport-level
connection (through `connectResource` or the libsignal connect,
depending on the transport option; both open a connection) and stores
the new process. -/
def getUnauthenticatedResource (st : SMState) (newId : ProcId) : UnauthResult :=
  match st.unauthenticated with
  | some p =>
      { outcome := UnauthOutcome.awaitExisting p, state := st, actions := [] }
  | none =>
      if st.isRemotelyExpired then
        { outcome := UnauthOutcome.expired, state := st, actions := [] }
      else
        { outcome := UnauthOutcome.started newId
          state := { st with unauthenticated := some newId }
          actions := [SMAction.openConnection Channel.unauthenticated] }

/-- The `TransportOption` from `WebsocketResources`. -/
inductive TransportOption
  | Original
  | Libsignal
  | ShadowingLow
  | ShadowingHigh
deriving DecidableEq

/-- Release channel of the build, as classified by `isStaging`,
`isAlpha` and `isBeta` over the version string (checked in that
order in `transportOption`; `production` is the final else). -/
inductive ReleaseChannel
  | staging
  | alpha
  | beta
  | production
deriving DecidableEq

/-- The inputs `transportOption` reads: whether a proxy agent is in use,
the hostname parsed from the configured url, the release channel of the
running version, and the three
`desktop.experimentalTransportEnabled.{alpha,beta,prod}` remote-config
flags. -/
structure TransportEnv where
  hasProxyAgent : Bool
  hostname : Option String
  channel : ReleaseChannel
  alphaFlagEnabled : Bool
  betaFlagEnabled : Bool
  prodFlagEnabled : Bool
deriving DecidableEq

/-- The hostname test in `transportOption`: true exactly when the
hostname exists and ends with the recognized production suffix. -/
def hostnameHasSuffix : Option String → Bool
  | none => false
  | some h => String.endsWith h ("signal.org")

/-- The `transportOption` (lines 712 to 753), translated clause by clause:
proxy usage or an unrecognized hostname forces `Original`; staging gets
`Libsignal`; alpha gets `Libsignal` when its flag is enabled, otherwise
`ShadowingHigh`; beta gets `ShadowingHigh` when its flag is enabled,
otherwise `ShadowingLow`; production gets `ShadowingLow` when its flag
is enabled, otherwise `Original`. -/
def transportOption (e : TransportEnv) : TransportOption :=
  if e.hasProxyAgent || !hostnameHasSuffix e.hostname then
    TransportOption.Original
  else
    match e.channel with
    | ReleaseChannel.staging => TransportOption.Libsignal
    | ReleaseChannel.alpha =>
        if e.alphaFlagEnabled then TransportOption.Libsignal
        else TransportOption.ShadowingHigh
    | ReleaseChannel.beta =>
        if e.betaFlagEnabled then TransportOption.ShadowingHigh
        else TransportOption.ShadowingLow
    | ReleaseChannel.production =>
        if e.prodFlagEnabled then TransportOption.ShadowingLow
        else TransportOption.Original

/-- The transport-variant selection as the specification words it, for
comparison with `transportOption`.  A proxy forces the legacy variant;
absent a proxy the selection applies only for a recognized production
hostname suffix; staging gets the fully experimental transport; alpha
gets the experimental transport unless the user opted out (flag
disabled), in which case high-intensity shadowing; beta gets
high-intensity shadowing by default and low-intensity shadowing when
opted out (flag disabled); production gets low-intensity shadowing or
the legacy variant depending on the remote flag. -/
def specTransportVariant (e : TransportEnv) : TransportOption :=
  if e.hasProxyAgent then TransportOption.Original
  else if !hostnameHasSuffix e.hostname then TransportOption.Original
  else
    match e.channel with
    | ReleaseChannel.staging => TransportOption.Libsignal
    | ReleaseChannel.alpha =>
        if !e.alphaFlagEnabled then TransportOption.ShadowingHigh
        else TransportOption.Libsignal
    | ReleaseChannel.beta =>
        if !e.betaFlagEnabled then TransportOption.ShadowingLow
        else TransportOption.ShadowingHigh
    | ReleaseChannel.production =>
        if e.prodFlagEnabled then TransportOption.ShadowingLow
        else TransportOption.Original

/-- The `body` field of the `RequestInit` passed to `fetch`: absent,
a `Uint8Array`, an `ArrayBuffer`, a string, or any other value. -/
inductive FetchBody
  | missing
  | uint8Array (bytes : List Nat)
  | arrayBuffer (bytes : List Nat)
  | text (s : String)
  | otherBody
deriving DecidableEq

/-- A usage error thrown by `fetch` while converting the body. -/
inductive FetchBodyError
  | unsupportedArrayBuffer
  | unsupportedOther
deriving DecidableEq

/-- The `Bytes.fromString`: UTF-8 encoding of a string. -/
def bytesFromString (s : String) : List Nat :=
  s.toUTF8.toList.map UInt8.toNat

/-- Lines 563 to 574 of `fetch`: an absent body stays absent, a
`Uint8Array` is used as is, an `ArrayBuffer` raises
`Unsupported body type: ArrayBuffer`, a string is UTF-8 encoded, and any
other value raises `Unsupported body type`. -/
def getBodyBytes : FetchBody → Except FetchBodyError (Option (List Nat))
  | FetchBody.missing => Except.ok none
  | FetchBody.uint8Array b => Except.ok (some b)
  | FetchBody.arrayBuffer _ => Except.error FetchBodyError.unsupportedArrayBuffer
  | FetchBody.text s => Except.ok (some (bytesFromString s))
  | FetchBody.otherBody => Except.error FetchBodyError.unsupportedOther

/-- The request `fetch` forwards to `resource.sendRequest`. -/
structure SentRequest where
  verb : String
  path : String
  body : Option (List Nat)
deriving DecidableEq

/-- The tail of `fetch` (lines 561 to 583): the body is converted first
and a conversion error propagates synchronously, so `sendRequest` is
reached — and a request sent on the resource — exactly when the
conversion succeeded. -/
def fetchSendRequest (method : String) (path : String) (body : FetchBody) :
    Except FetchBodyError SentRequest :=
  match getBodyBytes body with
  | Except.error e => Except.error e
  | Except.ok bodyBytes =>
      Except.ok { verb := method, path := path, body := bodyBytes }

/-- The `Set.add` on the handler set: adding an already registered handler
leaves the set unchanged. -/
def addHandler (hs : List HandlerId) (h : HandlerId) : List HandlerId :=
  if h ∈ hs then hs else hs ++ [h]

/-- The `queueOrHandleRequest` (lines 1020 to 1039): with no registered
handler the request is pushed on the incoming queue; otherwise it is
delivered to every registered handler in order, each delivery wrapped in
a try block whose catch clause only logs, so delivery continues past a
throwing handler. -/
def queueOrHandleRequest (st : SMState) (req : IncomingRequest) :
    SMState × List SMAction :=
  match st.requestHandlers with
  | [] =>
      ({ st with incomingRequestQueue := st.incomingRequestQueue ++ [req] }, [])
  | _ :: _ =>
      (st, st.requestHandlers.map fun h => SMAction.deliver h req)

/-- The for-loop in `registerRequestHandler` replaying a snapshot of the
queue through `queueOrHandleRequest`, in order. -/
def processQueue (st : SMState) : List IncomingRequest → SMState × List SMAction
  | [] => (st, [])
  | req :: rest =>
      let step1 := queueOrHandleRequest st req
      let step2 := processQueue step1.1 rest
      (step2.1, step1.2 ++ step2.2)

/-- The `registerRequestHandler` (lines 585 to 600): adds the handler to the
set, returns when the queue is empty, and otherwise empties the queue
and replays the snapshot through `queueOrHandleRequest`. -/
def registerRequestHandler (st : SMState) (h : HandlerId) :
    SMState × List SMAction :=
  let st1 := { st with requestHandlers := addHandler st.requestHandlers h }
  match st1.incomingRequestQueue with
  | [] => (st1, [])
  | _ :: _ =>
      processQueue { st1 with incomingRequestQueue := [] }
        st1.incomingRequestQueue

/-- The `if (authenticated) { authenticated.abort(); this.dropAuthenticated(authenticated); }`
pattern shared by `logout` and `reconnect`. -/
def dropAuthIfAny (st : SMState) : SMState :=
  match st.authenticated with
  | some ap => (dropAuthenticated st ap.id).1
  | none => st

/-- The matching pattern for the unauthenticated process in `reconnect`. -/
def dropUnauthIfAny (st : SMState) : SMState :=
  match st.unauthenticated with
  | some p => dropUnauthenticated st p
  | none => st

/-- The `if (this.credentials) { … await this.authenticate(this.credentials) }`
tail of `reconnect`. -/
def reauthIfCredentials (st : SMState) (newId : ProcId) : SMState :=
  match st.credentials with
  | some c => (authenticate st c newId).state
  | none => st

/-- The `logout` (lines 680 to 688): aborts and drops the authenticated
process when one exists, then clears the stored credentials. -/
def applyLogout (st : SMState) : SMState :=
  { dropAuthIfAny st with credentials := none }

/-- The public `reconnect` method (lines 618 to 642): aborts and drops
both processes, and when credentials are stored resets the backoff,
cancels a pending reconnect sleep and re-invokes `authenticate`. -/
def applyReconnectMethod (st : SMState) (newId : ProcId) : SMState :=
  reauthIfCredentials (dropUnauthIfAny (dropAuthIfAny st)) newId

/-- The `onRemoteExpiration` (lines 672 to 678): sets the expired flag and
cancels a pending reconnect sleep. -/
def applyRemoteExpiration (st : SMState) : SMState :=
  { st with isRemotelyExpired := true }

/-- The state-changing entry points of the manager and the asynchronous
continuations of the authenticated connection attempt, as one step
alphabet. -/
inductive ManagerStep
  | callAuthenticate (credentials : WebAPICredentials) (newId : ProcId)
  | authConnectResume
  | authSuccess (p : ProcId)
  | authFailure (p : ProcId) (error : ConnectionError)
  | authSocketClose (p : ProcId) (code : Int)
  | callGetUnauthenticated (newId : ProcId)
  | unauthSocketClose (p : ProcId)
  | callRegisterHandler (h : HandlerId)
  | callUnregisterHandler (h : HandlerId)
  | incomingRequest (req : IncomingRequest)
  | callLogout
  | callReconnect (newId : ProcId)
  | remoteExpiration
deriving DecidableEq

/-- Effect of one step on the manager state. -/
def applyStep (st : SMState) : ManagerStep → SMState
  | ManagerStep.callAuthenticate c n => (authenticate st c n).state
  | ManagerStep.authConnectResume => (authenticateResume st).1
  | ManagerStep.authSuccess p => (applyAuthSuccess st p).1
  | ManagerStep.authFailure p e => (authenticateOnFailure st p e).state
  | ManagerStep.authSocketClose p code => (authenticateOnClose st p code).state
  | ManagerStep.callGetUnauthenticated n => (getUnauthenticatedResource st n).state
  | ManagerStep.unauthSocketClose p => dropUnauthenticated st p
  | ManagerStep.callRegisterHandler h => (registerRequestHandler st h).1
  | ManagerStep.callUnregisterHandler h =>
      { st with requestHandlers := st.requestHandlers.filter (· ≠ h) }
  | ManagerStep.incomingRequest req => (queueOrHandleRequest st req).1
  | ManagerStep.callLogout => applyLogout st
  | ManagerStep.callReconnect n => applyReconnectMethod st n
  | ManagerStep.remoteExpiration => applyRemoteExpiration st

/-- The states of the manager reachable from construction through the
step alphabet. -/
inductive Reachable : SMState → Prop
  | init : Reachable initialState
  | next (st : SMState) (s : ManagerStep) :
      Reachable st → Reachable (applyStep st s)

/-- Whether the authenticated slot holds a successfully connected
resource. -/
def holdsConnected (st : SMState) : Bool :=
  match st.authenticated with
  | some ap => ap.phase == ProcPhase.connected
  | none => false

/-- The status invariant: OPEN exactly when the authenticated process
holds a successfully connected resource. -/
def StatusInv (st : SMState) : Prop :=
  st.status = SocketStatus.OPEN ↔ holdsConnected st = true

/-- Whether no authenticated connection attempt is in flight: no
`authenticate` call is suspended between its `setStatus(CONNECTING)` and
its replacement of the stored process, and the stored process, if any,
has resolved its result (a process still in phase connecting has its
`getResult()` await outstanding). -/
def authIdle (st : SMState) : Bool :=
  st.pendingConnects.isEmpty &&
    (match st.authenticated with
     | some ap => ap.phase == ProcPhase.connected
     | none => true)

/-- The status invariant conditioned on no authenticated connection
attempt being in flight. -/
def CondStatusInv (st : SMState) : Prop :=
  authIdle st = true → StatusInv st

/-- Inbound-side operations of the manager: registering a handler or an
incoming request pushed by the server on the authenticated resource. -/
inductive InboundOp
  | registerHandler (h : HandlerId)
  | arrive (req : IncomingRequest)
deriving DecidableEq

/-- Effect and delivered actions of one inbound operation. -/
def applyInboundOp (st : SMState) : InboundOp → SMState × List SMAction
  | InboundOp.registerHandler h => registerRequestHandler st h
  | InboundOp.arrive req => queueOrHandleRequest st req

/-- Running a sequence of inbound operations, accumulating the delivered
requests in order. -/
def runInbound (st : SMState) : List InboundOp → SMState × List SMAction
  | [] => (st, [])
  | op :: rest =>
      let s1 := applyInboundOp st op
      let s2 := runInbound s1.1 rest
      (s2.1, s1.2 ++ s2.2)

/-- A manager in the middle of an authenticated connection attempt
(process 7), with the online flag currently `true`. -/
def connectingOnlineState : SMState :=
  { initialState with
      authenticated := some ⟨7, ProcPhase.connecting⟩
      credentials := some { username := "user", password := "pass" }
      status := SocketStatus.CONNECTING
      privIsOnline := some true }

/-- The same manager with two inbound requests buffered while no handler
is registered. -/
def queuedState : SMState :=
  { connectingOnlineState with incomingRequestQueue := [5, 6] }

/-- A reachable state used to exercise the status invariant: a fresh
manager after a completed and successful authenticated connection
attempt (start, resume, success). -/
def c5WitnessState : SMState :=
  applyStep
    (applyStep
      (applyStep initialState
        (ManagerStep.callAuthenticate { username := "u", password := "p" } 0))
      ManagerStep.authConnectResume)
    (ManagerStep.authSuccess 0)

/-- A reachable state in the middle of a credential change: process 0
connected successfully (status OPEN), then `authenticate` was called
with different credentials and is suspended at the proxy-agent await —
status already CONNECTING while the old connected process still
occupies the slot. -/
def c5PendingState : SMState :=
  applyStep
    (applyStep
      (applyStep
        (applyStep initialState
          (ManagerStep.callAuthenticate { username := "u", password := "p" } 0))
        ManagerStep.authConnectResume)
      (ManagerStep.authSuccess 0))
    (ManagerStep.callAuthenticate { username := "u2", password := "p2" } 1)

/-- A reachable state from two overlapping `authenticate` calls: both
suspend at the proxy-agent await, the first resumes and its process 0
connects (status OPEN), then the second resumes, aborting process 0 and
storing its own not-yet-connected process 1 — status still OPEN while
the slot holds a connecting process. -/
def c5SupersededState : SMState :=
  applyStep
    (applyStep
      (applyStep
        (applyStep
          (applyStep initialState
            (ManagerStep.callAuthenticate { username := "u", password := "p" } 0))
          (ManagerStep.callAuthenticate { username := "u2", password := "p2" } 1))
        ManagerStep.authConnectResume)
      (ManagerStep.authSuccess 0))
    ManagerStep.authConnectResume

/-! ### Field-preservation lemmas -/

lemma setStatus_fst_status (st : SMState) (s : SocketStatus) :
    ((setStatus st s).1).status = s := by
  unfold setStatus
  split
  · next h => exact h
  · dsimp only
    split <;> rfl

lemma setStatus_fst_authenticated (st : SMState) (s : SocketStatus) :
    ((setStatus st s).1).authenticated = st.authenticated := by
  unfold setStatus
  split
  · rfl
  · dsimp only
    split <;> rfl

lemma setStatus_fst_unauthenticated (st : SMState) (s : SocketStatus) :
    ((setStatus st s).1).unauthenticated = st.unauthenticated := by
  unfold setStatus
  split
  · rfl
  · dsimp only
    split <;> rfl

lemma setStatus_fst_credentials (st : SMState) (s : SocketStatus) :
    ((setStatus st s).1).credentials = st.credentials := by
  unfold setStatus
  split
  · rfl
  · dsimp only
    split <;> rfl

lemma setStatus_fst_queue (st : SMState) (s : SocketStatus) :
    ((setStatus st s).1).incomingRequestQueue = st.incomingRequestQueue := by
  unfold setStatus
  split
  · rfl
  · dsimp only
    split <;> rfl

lemma setStatus_fst_handlers (st : SMState) (s : SocketStatus) :
    ((setStatus st s).1).requestHandlers = st.requestHandlers := by
  unfold setStatus
  split
  · rfl
  · dsimp only
    split <;> rfl

lemma setStatus_fst_expired (st : SMState) (s : SocketStatus) :
    ((setStatus st s).1).isRemotelyExpired = st.isRemotelyExpired := by
  unfold setStatus
  split
  · rfl
  · dsimp only
    split <;> rfl

lemma setStatus_fst_privIsOnline_of_ne (st : SMState) (s : SocketStatus)
    (h : s ≠ SocketStatus.OPEN) :
    ((setStatus st s).1).privIsOnline = st.privIsOnline := by
  unfold setStatus
  split
  · rfl
  · dsimp only
    split
    · next hc => exact absurd hc.1 h
    · rfl

lemma setStatus_events (st : SMState) (s : SocketStatus) (e : SMEvent)
    (he : e ∈ (setStatus st s).2) :
    e = SMEvent.statusChange ∨ e = SMEvent.online := by
  unfold setStatus at he
  split at he
  · simp at he
  · dsimp only at he
    split at he <;> simp at he <;> tauto

lemma dropAuthenticated_fst (st : SMState) (p : ProcId)
    (h : isCurrentAuth st p = true) :
    (dropAuthenticated st p).1.status = SocketStatus.CLOSED ∧
    (dropAuthenticated st p).1.authenticated = none ∧
    (dropAuthenticated st p).1.incomingRequestQueue = [] ∧
    (dropAuthenticated st p).1.privIsOnline = st.privIsOnline ∧
    (dropAuthenticated st p).1.isRemotelyExpired = st.isRemotelyExpired ∧
    (dropAuthenticated st p).1.requestHandlers = st.requestHandlers := by
  unfold dropAuthenticated
  rw [if_pos h]
  refine ⟨setStatus_fst_status _ _, ?_, ?_, ?_, ?_, ?_⟩
  · rw [setStatus_fst_authenticated]
  · rw [setStatus_fst_queue]
  · rw [setStatus_fst_privIsOnline_of_ne]
    decide
  · rw [setStatus_fst_expired]
  · rw [setStatus_fst_handlers]

lemma dropAuthenticated_events (st : SMState) (p : ProcId) (e : SMEvent)
    (he : e ∈ (dropAuthenticated st p).2) :
    e = SMEvent.statusChange ∨ e = SMEvent.online := by
  unfold dropAuthenticated at he
  split at he
  · exact setStatus_events _ _ _ he
  · simp at he

lemma queueOrHandleRequest_fields (st : SMState) (req : IncomingRequest) :
    ((queueOrHandleRequest st req).1).status = st.status ∧
    ((queueOrHandleRequest st req).1).authenticated = st.authenticated ∧
    ((queueOrHandleRequest st req).1).isRemotelyExpired = st.isRemotelyExpired ∧
    ((queueOrHandleRequest st req).1).requestHandlers = st.requestHandlers ∧
    ((queueOrHandleRequest st req).1).pendingConnects = st.pendingConnects := by
  unfold queueOrHandleRequest
  split <;> exact ⟨rfl, rfl, rfl, rfl, rfl⟩

lemma processQueue_fields (st : SMState) (q : List IncomingRequest) :
    ((processQueue st q).1).status = st.status ∧
    ((processQueue st q).1).authenticated = st.authenticated ∧
    ((processQueue st q).1).isRemotelyExpired = st.isRemotelyExpired ∧
    ((processQueue st q).1).pendingConnects = st.pendingConnects := by
  induction q generalizing st with
  | nil => exact ⟨rfl, rfl, rfl, rfl⟩
  | cons r rest ih =>
      have h1 := queueOrHandleRequest_fields st r
      have h2 := ih (queueOrHandleRequest st r).1
      unfold processQueue
      exact ⟨h2.1.trans h1.1, h2.2.1.trans h1.2.1, h2.2.2.1.trans h1.2.2.1,
        h2.2.2.2.trans h1.2.2.2.2⟩

lemma registerRequestHandler_fields (st : SMState) (h : HandlerId) :
    ((registerRequestHandler st h).1).status = st.status ∧
    ((registerRequestHandler st h).1).authenticated = st.authenticated ∧
    ((registerRequestHandler st h).1).isRemotelyExpired = st.isRemotelyExpired ∧
    ((registerRequestHandler st h).1).pendingConnects = st.pendingConnects := by
  unfold registerRequestHandler
  dsimp only
  split
  · exact ⟨rfl, rfl, rfl, rfl⟩
  · exact processQueue_fields _ _

lemma dropAuthenticated_expired_any (st : SMState) (p : ProcId) :
    (dropAuthenticated st p).1.isRemotelyExpired = st.isRemotelyExpired := by
  unfold dropAuthenticated
  split
  · rw [setStatus_fst_expired]
  · rfl

lemma dropUnauthenticated_expired (st : SMState) (p : ProcId) :
    (dropUnauthenticated st p).isRemotelyExpired = st.isRemotelyExpired := by
  unfold dropUnauthenticated
  split <;> rfl

lemma authenticate_state_expired (st : SMState) (c : WebAPICredentials) (n : ProcId) :
    ((authenticate st c n).state).isRemotelyExpired = st.isRemotelyExpired := by
  unfold authenticate authenticateStartConnect
  split
  · rfl
  · split
    · rfl
    · split
      · rfl
      · dsimp only
        rw [setStatus_fst_expired]

lemma authenticateResume_expired (st : SMState) :
    ((authenticateResume st).1).isRemotelyExpired = st.isRemotelyExpired := by
  unfold authenticateResume
  split <;> rfl

lemma applyAuthSuccess_expired (st : SMState) (p : ProcId) :
    ((applyAuthSuccess st p).1).isRemotelyExpired = st.isRemotelyExpired := by
  unfold applyAuthSuccess
  split
  · rw [setStatus_fst_expired]
  · rfl

lemma authenticateOnFailure_expired (st : SMState) (p : ProcId) (e : ConnectionError) :
    ((authenticateOnFailure st p e).state).isRemotelyExpired = st.isRemotelyExpired := by
  unfold authenticateOnFailure
  split
  · rfl
  · cases e <;> (try dsimp only) <;> (repeat' split) <;> (try dsimp only) <;>
      exact dropAuthenticated_expired_any st p

lemma authenticateOnClose_expired (st : SMState) (p : ProcId) (code : Int) :
    ((authenticateOnClose st p code).state).isRemotelyExpired = st.isRemotelyExpired := by
  unfold authenticateOnClose
  split
  · rfl
  · dsimp only
    (repeat' split) <;> dsimp only <;> exact dropAuthenticated_expired_any st p

lemma getUnauthenticatedResource_expired (st : SMState) (n : ProcId) :
    ((getUnauthenticatedResource st n).state).isRemotelyExpired = st.isRemotelyExpired := by
  unfold getUnauthenticatedResource
  split
  · rfl
  · split <;> rfl

lemma dropAuthIfAny_expired (st : SMState) :
    (dropAuthIfAny st).isRemotelyExpired = st.isRemotelyExpired := by
  unfold dropAuthIfAny
  split
  · rw [dropAuthenticated_expired_any]
  · rfl

lemma dropUnauthIfAny_expired (st : SMState) :
    (dropUnauthIfAny st).isRemotelyExpired = st.isRemotelyExpired := by
  unfold dropUnauthIfAny
  split
  · rw [dropUnauthenticated_expired]
  · rfl

lemma reauthIfCredentials_expired (st : SMState) (n : ProcId) :
    (reauthIfCredentials st n).isRemotelyExpired = st.isRemotelyExpired := by
  unfold reauthIfCredentials
  split
  · rw [authenticate_state_expired]
  · rfl

lemma applyLogout_expired (st : SMState) :
    (applyLogout st).isRemotelyExpired = st.isRemotelyExpired := by
  unfold applyLogout
  show (dropAuthIfAny st).isRemotelyExpired = st.isRemotelyExpired
  exact dropAuthIfAny_expired st

lemma applyReconnectMethod_expired (st : SMState) (n : ProcId) :
    (applyReconnectMethod st n).isRemotelyExpired = st.isRemotelyExpired := by
  unfold applyReconnectMethod
  rw [reauthIfCredentials_expired, dropUnauthIfAny_expired, dropAuthIfAny_expired]

/-- No manager step clears the remotely-expired flag. -/
lemma applyStep_expired (st : SMState) (s : ManagerStep)
    (h : st.isRemotelyExpired = true) :
    (applyStep st s).isRemotelyExpired = true := by
  cases s with
  | callAuthenticate c n =>
      rw [applyStep, authenticate_state_expired]; exact h
  | authConnectResume =>
      rw [applyStep, authenticateResume_expired]; exact h
  | authSuccess p =>
      rw [applyStep, applyAuthSuccess_expired]; exact h
  | authFailure p e =>
      rw [applyStep, authenticateOnFailure_expired]; exact h
  | authSocketClose p code =>
      rw [applyStep, authenticateOnClose_expired]; exact h
  | callGetUnauthenticated n =>
      rw [applyStep, getUnauthenticatedResource_expired]; exact h
  | unauthSocketClose p =>
      rw [applyStep, dropUnauthenticated_expired]; exact h
  | callRegisterHandler hh =>
      rw [applyStep, (registerRequestHandler_fields st hh).2.2.1]; exact h
  | callUnregisterHandler hh =>
      exact h
  | incomingRequest req =>
      rw [applyStep, (queueOrHandleRequest_fields st req).2.2.1]; exact h
  | callLogout =>
      rw [applyStep, applyLogout_expired]; exact h
  | callReconnect n =>
      rw [applyStep, applyReconnectMethod_expired]; exact h
  | remoteExpiration =>
      rfl

/-! ### Claim theorems -/

/-- C7: for every combination of proxy presence, hostname, release
channel and remote flag values, the unauthenticated transport-variant
selection computed by the code agrees with the selection as the
specification words it: legacy when a proxy is in use or the hostname
lacks the recognized production suffix; fully experimental for staging;
for alpha the experimental transport unless the opt-out flag condition
holds, in which case high-intensity shadow; for beta high-intensity
shadow by default and low-intensity shadow if opted out; for production
low-intensity shadow or legacy depending on a remote flag. -/
theorem c7_transport_variant_selection (e : TransportEnv) :
    transportOption e = specTransportVariant e := by
  obtain ⟨proxy, host, ch, fa, fb, fp⟩ := e
  cases proxy <;> cases ch <;>
    simp [transportOption, specTransportVariant] <;>
    cases hostnameHasSuffix host <;> cases fa <;> cases fb <;> simp

/-- C8: `fetch` accepts and forwards an absent body, a byte buffer
(`Uint8Array`) and text, and raises a synchronous usage error for every
other body type (including `ArrayBuffer`), in which case no request is
sent on the resource (the error is returned instead of a sent
request). -/
theorem c8_fetch_body_types (method path : String) (b : List Nat) (s : String) :
    fetchSendRequest method path FetchBody.missing
      = Except.ok { verb := method, path := path, body := none } ∧
    fetchSendRequest method path (FetchBody.uint8Array b)
      = Except.ok { verb := method, path := path, body := some b } ∧
    fetchSendRequest method path (FetchBody.text s)
      = Except.ok { verb := method, path := path, body := some (bytesFromString s) } ∧
    fetchSendRequest method path (FetchBody.arrayBuffer b)
      = Except.error FetchBodyError.unsupportedArrayBuffer ∧
    fetchSendRequest method path FetchBody.otherBody
      = Except.error FetchBodyError.unsupportedOther :=
  ⟨rfl, rfl, rfl, rfl, rfl⟩

/-- C10: when a live unauthenticated connection process exists,
`getUnauthenticatedResource` returns that process and its result at
once, with no new transport connection — with no assumption on the
remote-expiry flag, so this holds even when the manager is remotely
expired; and the fail-fast expired outcome can only arise when no
unauthenticated process exists. -/
theorem c10_unauth_reuse_before_expiry_check (st : SMState) (p newId : ProcId)
    (h : st.unauthenticated = some p) :
    getUnauthenticatedResource st newId
      = { outcome := UnauthOutcome.awaitExisting p, state := st, actions := [] } ∧
    ∀ st2 : SMState,
      (getUnauthenticatedResource st2 newId).outcome = UnauthOutcome.expired →
        st2.unauthenticated = none := by
  constructor
  · unfold getUnauthenticatedResource
    rw [h]
  · intro st2 hout
    unfold getUnauthenticatedResource at hout
    split at hout
    · simp at hout
    · next hnone => exact hnone

/-- Witness for C10 at a concrete remotely expired state holding an
unauthenticated process. -/
theorem c10_witness :
    getUnauthenticatedResource
        { initialState with unauthenticated := some 4, isRemotelyExpired := true } 9
      = { outcome := UnauthOutcome.awaitExisting 4
          state := { initialState with unauthenticated := some 4, isRemotelyExpired := true }
          actions := [] } :=
  (c10_unauth_reuse_before_expiry_check
    { initialState with unauthenticated := some 4, isRemotelyExpired := true }
    4 9 rfl).1

/-- C6: once the manager is remotely expired, `authenticate` throws at
once with no state change and no transport connection, the
unauthenticated channel opens no transport connection, the reconnect
helper returns before arming its timer and schedules nothing, and no
manager step ever clears the expired flag (so the same holds for every
subsequent call). -/
theorem c6_remote_expiration_fail_fast (st : SMState) (c : WebAPICredentials)
    (n : ProcId) (h : st.isRemotelyExpired = true) :
    (authenticate st c n).outcome = AuthenticateOutcome.expired ∧
    (authenticate st c n).actions = [] ∧
    (authenticate st c n).state = st ∧
    (getUnauthenticatedResource st n).actions = [] ∧
    reconnectHelper st n = (ReconnectOutcome.expired, []) ∧
    reconnectSchedules st = false ∧
    ∀ s : ManagerStep, (applyStep st s).isRemotelyExpired = true := by
  have hauth : authenticate st c n
      = { outcome := AuthenticateOutcome.expired, state := st
          events := [], actions := [] } := by
    unfold authenticate
    rw [if_pos h]
  refine ⟨by rw [hauth], by rw [hauth], by rw [hauth], ?_, ?_, ?_, ?_⟩
  · unfold getUnauthenticatedResource
    split
    · rfl
    · rw [if_pos h]
  · unfold reconnectHelper
    rw [if_pos h]
  · unfold reconnectSchedules
    rw [h]
    rfl
  · intro s
    exact applyStep_expired st s h

/-- Witness for C6 at a concrete remotely expired state. -/
theorem c6_witness :
    ({ initialState with isRemotelyExpired := true } : SMState).isRemotelyExpired = true ∧
    (authenticate { initialState with isRemotelyExpired := true }
        { username := "u", password := "p" } 3).outcome
      = AuthenticateOutcome.expired :=
  ⟨rfl,
   (c6_remote_expiration_fail_fast { initialState with isRemotelyExpired := true }
     { username := "u", password := "p" } 3 rfl).1⟩

/-- C3: calling `authenticate` with credentials equal field by field to
the stored ones while an authenticated process exists takes the
idempotent re-entry branch: it awaits the existing process, changes no
state, emits nothing and opens no transport-level connection; and a
failure of the awaited result is swallowed (the awaiting block returns
normally on an error). -/
theorem c3_idempotent_reauthenticate (st : SMState)
    (stored c : WebAPICredentials) (ap : AuthProc) (n : ProcId)
    (e : ConnectionError)
    (hexp : st.isRemotelyExpired = false)
    (hne : ¬(c.username = "" ∧ c.password = ""))
    (hcred : st.credentials = some stored)
    (hu : stored.username = c.username)
    (hp : stored.password = c.password)
    (hauth : st.authenticated = some ap) :
    authenticate st c n
      = { outcome := AuthenticateOutcome.awaitExisting ap.id
          state := st, events := [], actions := [] } ∧
    awaitExistingAuthenticated (Except.error e) = Except.ok () := by
  refine ⟨?_, rfl⟩
  have hsame : sameStoredCredentials st c = true := by
    unfold sameStoredCredentials
    rw [hcred]
    simp [hu, hp]
  have hsome : st.authenticated.isSome = true := by
    rw [hauth]
    rfl
  unfold authenticate
  rw [if_neg (by simp [hexp]), if_neg hne, if_pos ⟨hsame, hsome⟩, hauth]
  rfl

/-- Witness for C3 at a concrete state. -/
theorem c3_witness :
    authenticate
        { initialState with
            credentials := some { username := "user", password := "pass" }
            authenticated := some ⟨7, ProcPhase.connecting⟩ }
        { username := "user", password := "pass" } 9
      = { outcome := AuthenticateOutcome.awaitExisting 7
          state :=
            { initialState with
                credentials := some { username := "user", password := "pass" }
                authenticated := some ⟨7, ProcPhase.connecting⟩ }
          events := [], actions := [] } ∧
    awaitExistingAuthenticated (Except.error ConnectionError.generic)
      = Except.ok () :=
  c3_idempotent_reauthenticate _ { username := "user", password := "pass" }
    { username := "user", password := "pass" } ⟨7, ProcPhase.connecting⟩ 9
    ConnectionError.generic rfl (by decide) rfl rfl rfl rfl

/-- Characterization of the failure continuation for an `HTTPError` when
the failed process is still the current one. -/
lemma authenticateOnFailure_char (st : SMState) (p : ProcId) (code : Int)
    (hcur : isCurrentAuth st p = true) :
    authenticateOnFailure st p (ConnectionError.http code) =
      if code = 401 ∨ code = 403 then
        { state := (dropAuthenticated st p).1
          events := (dropAuthenticated st p).2 ++ [SMEvent.authError code]
          reconnectsScheduled := 0 }
      else if ¬(500 ≤ code ∧ code ≤ 599) ∧ code ≠ -1 then
        { state := (dropAuthenticated st p).1
          events := (dropAuthenticated st p).2
          reconnectsScheduled := 0 }
      else if code = -1 ∧ st.privIsOnline ≠ some false then
        { state := { (dropAuthenticated st p).1 with privIsOnline := some false }
          events := (dropAuthenticated st p).2 ++ [SMEvent.offline]
          reconnectsScheduled := if st.isRemotelyExpired then 0 else 1 }
      else
        { state := (dropAuthenticated st p).1
          events := (dropAuthenticated st p).2
          reconnectsScheduled := if st.isRemotelyExpired then 0 else 1 } := by
  have hfields := dropAuthenticated_fst st p hcur
  unfold authenticateOnFailure
  rw [hcur]
  rw [if_neg (by decide)]
  dsimp only
  unfold reconnectSchedules
  rw [hfields.2.2.2.1, hfields.2.2.2.2.1]
  cases st.isRemotelyExpired <;> simp

/-- Characterization of the close listener when the closed process is
still the current one. -/
lemma authenticateOnClose_char (st : SMState) (p : ProcId) (code : Int)
    (hcur : isCurrentAuth st p = true) :
    authenticateOnClose st p code =
      if code = 3000 then
        { state := (dropAuthenticated st p).1
          events := (dropAuthenticated st p).2
          reconnectsScheduled := 0 }
      else if code = 4409 then
        { state := (dropAuthenticated st p).1
          events := (dropAuthenticated st p).2
          reconnectsScheduled := 0 }
      else
        { state := (dropAuthenticated st p).1
          events := (dropAuthenticated st p).2
          reconnectsScheduled := if st.isRemotelyExpired then 0 else 1 } := by
  have hfields := dropAuthenticated_fst st p hcur
  unfold authenticateOnClose
  rw [hcur]
  rw [if_neg (by decide)]
  dsimp only
  unfold reconnectSchedules
  rw [hfields.2.2.2.2.1]
  cases st.isRemotelyExpired <;> simp

/-- C1 counterexample: when the current connection attempt fails with an
HTTP 500 while the online flag is `true`, the code schedules a reconnect
but does NOT mark `online=false` and does NOT emit `offline` — the
offline bookkeeping runs only for the sentinel code -1 — contradicting
the claim that a 500..599 failure marks online=false and emits
`offline` the first time. -/
theorem c1_counterexample :
    (authenticateOnFailure connectingOnlineState 7
        (ConnectionError.http 500)).reconnectsScheduled = 1 ∧
    (authenticateOnFailure connectingOnlineState 7
        (ConnectionError.http 500)).state.privIsOnline = some true ∧
    SMEvent.offline ∉
      (authenticateOnFailure connectingOnlineState 7
        (ConnectionError.http 500)).events := by
  decide

/-- C1 (amended): when the current process fails with an `HTTPError`
while the manager is not remotely expired: a 401 or 403 emits
`authError` and schedules no reconnect; a code in 500..599 or the
sentinel -1 schedules a reconnect, but only the sentinel -1 touches the
online flag — a 5xx failure leaves `privIsOnline` unchanged and emits no
`offline`, while -1 (when the flag is not already `false`) sets it to
`false` and emits `offline`; any other code schedules no reconnect and
emits neither `authError` nor `offline`. -/
theorem c1_amended_failure_policy (st : SMState) (p : ProcId) (code : Int)
    (hcur : isCurrentAuth st p = true)
    (hexp : st.isRemotelyExpired = false) :
    ((code = 401 ∨ code = 403) →
      SMEvent.authError code ∈
          (authenticateOnFailure st p (ConnectionError.http code)).events ∧
        (authenticateOnFailure st p
          (ConnectionError.http code)).reconnectsScheduled = 0) ∧
    (((500 ≤ code ∧ code ≤ 599) ∨ code = -1) →
      (authenticateOnFailure st p
        (ConnectionError.http code)).reconnectsScheduled = 1) ∧
    ((500 ≤ code ∧ code ≤ 599) →
      (authenticateOnFailure st p
          (ConnectionError.http code)).state.privIsOnline = st.privIsOnline ∧
        SMEvent.offline ∉
          (authenticateOnFailure st p (ConnectionError.http code)).events) ∧
    ((code = -1 ∧ st.privIsOnline ≠ some false) →
      (authenticateOnFailure st p
          (ConnectionError.http code)).state.privIsOnline = some false ∧
        SMEvent.offline ∈
          (authenticateOnFailure st p (ConnectionError.http code)).events) ∧
    ((¬(code = 401 ∨ code = 403) ∧ ¬(500 ≤ code ∧ code ≤ 599) ∧ code ≠ -1) →
      (authenticateOnFailure st p
          (ConnectionError.http code)).reconnectsScheduled = 0 ∧
        SMEvent.offline ∉
          (authenticateOnFailure st p (ConnectionError.http code)).events ∧
        ∀ c2 : Int,
          SMEvent.authError c2 ∉
            (authenticateOnFailure st p (ConnectionError.http code)).events) := by
  have hfields := dropAuthenticated_fst st p hcur
  have hdropEv := dropAuthenticated_events st p
  rw [authenticateOnFailure_char st p code hcur]
  refine ⟨?_, ?_, ?_, ?_, ?_⟩
  · intro h
    rw [if_pos h]
    simp
  · intro h
    have h401 : ¬(code = 401 ∨ code = 403) := by omega
    have hmid : ¬(¬(500 ≤ code ∧ code ≤ 599) ∧ code ≠ -1) := by
      rcases h with h | h
      · intro hc
        exact hc.1 h
      · intro hc
        exact hc.2 h
    rw [if_neg h401, if_neg hmid, hexp]
    by_cases hoff : code = -1 ∧ st.privIsOnline ≠ some false
    · rw [if_pos hoff]
      rfl
    · rw [if_neg hoff]
      rfl
  · intro h
    have h401 : ¬(code = 401 ∨ code = 403) := by omega
    have hmid : ¬(¬(500 ≤ code ∧ code ≤ 599) ∧ code ≠ -1) := fun hc => hc.1 h
    have hoff : ¬(code = -1 ∧ st.privIsOnline ≠ some false) := by
      intro hc
      omega
    rw [if_neg h401, if_neg hmid, if_neg hoff]
    refine ⟨hfields.2.2.2.1, ?_⟩
    intro hmem
    rcases hdropEv _ hmem with h1 | h1 <;> simp at h1
  · intro h
    have h401 : ¬(code = 401 ∨ code = 403) := by omega
    have hmid : ¬(¬(500 ≤ code ∧ code ≤ 599) ∧ code ≠ -1) := fun hc => hc.2 h.1
    rw [if_neg h401, if_neg hmid, if_pos h]
    exact ⟨rfl, by simp⟩
  · intro h
    have hmid : ¬(500 ≤ code ∧ code ≤ 599) ∧ code ≠ -1 := ⟨h.2.1, h.2.2⟩
    rw [if_neg h.1, if_pos hmid]
    refine ⟨rfl, ?_, ?_⟩
    · intro hmem
      rcases hdropEv _ hmem with h1 | h1 <;> simp at h1
    · intro c2 hmem
      rcases hdropEv _ hmem with h1 | h1 <;> simp at h1

/-- Witness for the amended C1 at the concrete state and code 500. -/
theorem c1_amended_witness :
    isCurrentAuth connectingOnlineState 7 = true ∧
    connectingOnlineState.isRemotelyExpired = false ∧
    (authenticateOnFailure connectingOnlineState 7
      (ConnectionError.http 500)).reconnectsScheduled = 1 :=
  ⟨by decide, by decide,
   (c1_amended_failure_policy connectingOnlineState 7 500 (by decide)
      (by decide)).2.1 (Or.inl (by decide))⟩

/-- C2: a close event delivered while the closed process is still the
current one and the manager is not remotely expired always drops the
process (slot emptied, status CLOSED); close codes 3000 and 4409
schedule no reconnect, every other code schedules exactly one reconnect;
and after the drop a duplicate close event for the same process
schedules nothing, so exactly one reconnect is scheduled per close. -/
theorem c2_close_code_policy (st : SMState) (p : ProcId) (code : Int)
    (hcur : isCurrentAuth st p = true)
    (hexp : st.isRemotelyExpired = false) :
    (authenticateOnClose st p code).state.authenticated = none ∧
    (authenticateOnClose st p code).state.status = SocketStatus.CLOSED ∧
    ((code = 3000 ∨ code = 4409) →
      (authenticateOnClose st p code).reconnectsScheduled = 0) ∧
    ((code ≠ 3000 ∧ code ≠ 4409) →
      (authenticateOnClose st p code).reconnectsScheduled = 1) ∧
    (∀ code2 : Int,
      (authenticateOnClose (authenticateOnClose st p code).state p
        code2).reconnectsScheduled = 0) := by
  have hfields := dropAuthenticated_fst st p hcur
  rw [authenticateOnClose_char st p code hcur]
  have hstate :
      (if code = 3000 then
        ({ state := (dropAuthenticated st p).1
           events := (dropAuthenticated st p).2
           reconnectsScheduled := 0 } : FailureOutcome)
      else if code = 4409 then
        { state := (dropAuthenticated st p).1
          events := (dropAuthenticated st p).2
          reconnectsScheduled := 0 }
      else
        { state := (dropAuthenticated st p).1
          events := (dropAuthenticated st p).2
          reconnectsScheduled := if st.isRemotelyExpired then 0 else 1 }).state
      = (dropAuthenticated st p).1 := by
    split
    · rfl
    · split <;> rfl
  refine ⟨?_, ?_, ?_, ?_, ?_⟩
  · rw [hstate]
    exact hfields.2.1
  · rw [hstate]
    exact hfields.1
  · intro h
    rcases h with h | h
    · rw [if_pos h]
    · rw [if_neg (by omega), if_pos h]
  · intro h
    rw [if_neg h.1, if_neg h.2, hexp]
    rfl
  · intro code2
    rw [hstate]
    have hnc : isCurrentAuth (dropAuthenticated st p).1 p = false := by
      unfold isCurrentAuth
      rw [hfields.2.1]
    unfold authenticateOnClose
    rw [hnc]
    rfl

/-- Witness for C2 at the concrete state and close code 1006. -/
theorem c2_witness :
    isCurrentAuth connectingOnlineState 7 = true ∧
    connectingOnlineState.isRemotelyExpired = false ∧
    (authenticateOnClose connectingOnlineState 7 1006).reconnectsScheduled = 1 :=
  ⟨by decide, by decide,
   (c2_close_code_policy connectingOnlineState 7 1006 (by decide)
      (by decide)).2.2.2.1 (by decide)⟩

/-- With at least one registered handler, `queueOrHandleRequest`
dispatches to every handler and leaves the state unchanged. -/
lemma queueOrHandleRequest_dispatch (st : SMState) (req : IncomingRequest)
    (h : st.requestHandlers ≠ []) :
    queueOrHandleRequest st req
      = (st, st.requestHandlers.map fun hh => SMAction.deliver hh req) := by
  unfold queueOrHandleRequest
  split
  · next heq => exact absurd heq h
  · rfl

/-- Replaying a queue with exactly one registered handler delivers every
queued request to that handler, in order, without touching the state. -/
lemma processQueue_single (st : SMState) (q : List IncomingRequest)
    (hh : HandlerId) (h : st.requestHandlers = [hh]) :
    processQueue st q = (st, q.map fun r => SMAction.deliver hh r) := by
  induction q with
  | nil => rfl
  | cons r rest ih =>
      unfold processQueue
      rw [queueOrHandleRequest_dispatch st r (by rw [h]; exact List.cons_ne_nil _ _)]
      dsimp only
      rw [ih, h]
      rfl

/-- Registering a handler while no handler is registered replays the
whole buffered queue to it, in order, and empties the buffer. -/
lemma registerRequestHandler_from_zero (st : SMState) (hh : HandlerId)
    (h : st.requestHandlers = []) :
    registerRequestHandler st hh
      = ({ st with requestHandlers := [hh], incomingRequestQueue := [] },
         st.incomingRequestQueue.map fun r => SMAction.deliver hh r) := by
  obtain ⟨a, u, c, s, rh, q, o, x, pc⟩ := st
  simp only at h
  subst h
  have hadd : addHandler [] hh = [hh] := by
    unfold addHandler
    simp
  unfold registerRequestHandler
  dsimp only
  rw [hadd]
  cases q with
  | nil => rfl
  | cons r rest =>
      rw [processQueue_single _ (r :: rest) hh rfl]

/-- Running only arrivals with exactly one registered handler delivers
each arriving request to it, in order, without touching the state. -/
lemma runInbound_arrivals_single (st : SMState) (rs : List IncomingRequest)
    (hh : HandlerId) (h : st.requestHandlers = [hh]) :
    runInbound st (rs.map InboundOp.arrive)
      = (st, rs.map fun r => SMAction.deliver hh r) := by
  induction rs with
  | nil => rfl
  | cons r rest ih =>
      rw [List.map_cons]
      unfold runInbound applyInboundOp
      dsimp only
      rw [queueOrHandleRequest_dispatch st r (by rw [h]; exact List.cons_ne_nil _ _)]
      dsimp only
      rw [ih, h]
      rfl

/-- Registering a handler on an empty buffer replays nothing. -/
lemma registerRequestHandler_empty_queue (st : SMState) (hh : HandlerId)
    (hq : st.incomingRequestQueue = []) :
    (registerRequestHandler st hh).2 = [] := by
  obtain ⟨a, u, c, s, rh, q, o, x, pc⟩ := st
  simp only at hq
  subst hq
  rfl

/-- C4: if requests `q` arrive while zero handlers are registered, then
registering a handler delivers exactly those buffered requests, in
arrival order, before any request that arrives after registration is
dispatched, and the buffer is empty afterwards: the trace consisting of
the registration followed by later arrivals `rs` delivers precisely
`(q ++ rs)` to the handler, in order, and ends with an empty buffer. -/
theorem c4_buffered_requests_replay (st : SMState)
    (q rs : List IncomingRequest) (hh : HandlerId)
    (hhandlers : st.requestHandlers = [])
    (hqueue : st.incomingRequestQueue = q) :
    runInbound st (InboundOp.registerHandler hh :: rs.map InboundOp.arrive)
      = ({ st with requestHandlers := [hh], incomingRequestQueue := [] },
         (q ++ rs).map fun r => SMAction.deliver hh r) := by
  unfold runInbound applyInboundOp
  dsimp only
  rw [registerRequestHandler_from_zero st hh hhandlers]
  dsimp only
  rw [runInbound_arrivals_single _ rs hh rfl]
  dsimp only
  rw [hqueue, List.map_append]

/-- Witness for C4: two buffered requests and one later arrival. -/
theorem c4_witness :
    runInbound { initialState with incomingRequestQueue := [10, 11] }
        [InboundOp.registerHandler 0, InboundOp.arrive 12]
      = ({ initialState with requestHandlers := [0] },
         [SMAction.deliver 0 10, SMAction.deliver 0 11, SMAction.deliver 0 12]) :=
  c4_buffered_requests_replay
    { initialState with incomingRequestQueue := [10, 11] } [10, 11] [12] 0 rfl rfl

/-- The close listener leaves an empty incoming-request queue when the
closed process was current. -/
lemma authenticateOnClose_queue (st : SMState) (p : ProcId) (code : Int)
    (hcur : isCurrentAuth st p = true) :
    (authenticateOnClose st p code).state.incomingRequestQueue = [] := by
  have hfields := dropAuthenticated_fst st p hcur
  rw [authenticateOnClose_char st p code hcur]
  split
  · exact hfields.2.2.1
  · split
    · exact hfields.2.2.1
    · exact hfields.2.2.1

/-- The failure continuation leaves an empty incoming-request queue when
the failed process was current. -/
lemma authenticateOnFailure_queue (st : SMState) (p : ProcId)
    (e : ConnectionError) (hcur : isCurrentAuth st p = true) :
    (authenticateOnFailure st p e).state.incomingRequestQueue = [] := by
  have hfields := dropAuthenticated_fst st p hcur
  cases e with
  | http code =>
      rw [authenticateOnFailure_char st p code hcur]
      split
      · exact hfields.2.2.1
      · split
        · exact hfields.2.2.1
        · split
          · exact hfields.2.2.1
          · exact hfields.2.2.1
  | generic =>
      unfold authenticateOnFailure
      rw [hcur, if_neg (by decide)]
      dsimp only
      exact hfields.2.2.1

/-- C9: when the current authenticated process is dropped — by the close
listener or by the failure continuation — the buffered inbound-request
queue is emptied, and a handler registered afterwards has nothing
replayed to it. -/
theorem c9_drop_discards_buffered_requests (st : SMState) (p : ProcId)
    (code : Int) (e : ConnectionError) (hcur : isCurrentAuth st p = true) :
    (authenticateOnClose st p code).state.incomingRequestQueue = [] ∧
    (authenticateOnFailure st p e).state.incomingRequestQueue = [] ∧
    (∀ hh : HandlerId,
      (registerRequestHandler (authenticateOnClose st p code).state hh).2 = []) ∧
    (∀ hh : HandlerId,
      (registerRequestHandler (authenticateOnFailure st p e).state hh).2 = []) := by
  refine ⟨authenticateOnClose_queue st p code hcur,
          authenticateOnFailure_queue st p e hcur, ?_, ?_⟩
  · intro hh
    exact registerRequestHandler_empty_queue _ hh
      (authenticateOnClose_queue st p code hcur)
  · intro hh
    exact registerRequestHandler_empty_queue _ hh
      (authenticateOnFailure_queue st p e hcur)

/-- Witness for C9 at a concrete state with two buffered requests. -/
theorem c9_witness :
    queuedState.incomingRequestQueue = [5, 6] ∧
    (authenticateOnClose queuedState 7 1006).state.incomingRequestQueue = [] :=
  ⟨rfl,
   (c9_drop_discards_buffered_requests queuedState 7 1006
      ConnectionError.generic (by decide)).1⟩

/-! ### Status invariant (C5) -/

lemma statusInv_of_eq (st st2 : SMState) (h : StatusInv st)
    (hs : st2.status = st.status) (ha : st2.authenticated = st.authenticated) :
    StatusInv st2 := by
  unfold StatusInv holdsConnected at *
  rw [hs, ha]
  exact h

lemma statusInv_closed_none (st2 : SMState)
    (hs : st2.status = SocketStatus.CLOSED) (ha : st2.authenticated = none) :
    StatusInv st2 := by
  unfold StatusInv holdsConnected
  rw [hs, ha]
  simp

lemma authIdle_false_of_pending (st : SMState) (h : st.pendingConnects ≠ []) :
    authIdle st = false := by
  unfold authIdle
  cases hp : st.pendingConnects with
  | nil => exact absurd hp h
  | cons a l => simp

lemma authIdle_false_of_connecting (st : SMState) (p : ProcId)
    (h : st.authenticated = some ⟨p, ProcPhase.connecting⟩) :
    authIdle st = false := by
  unfold authIdle
  rw [h]
  simp

lemma condInv_of_eq (st st2 : SMState) (h : CondStatusInv st)
    (hs : st2.status = st.status) (ha : st2.authenticated = st.authenticated)
    (hp : st2.pendingConnects = st.pendingConnects) : CondStatusInv st2 := by
  intro hidle
  have hidle2 : authIdle st = true := by
    unfold authIdle at hidle ⊢
    rw [ha, hp] at hidle
    exact hidle
  exact statusInv_of_eq st st2 (h hidle2) hs ha

lemma condInv_closed_none (st2 : SMState)
    (hs : st2.status = SocketStatus.CLOSED) (ha : st2.authenticated = none) :
    CondStatusInv st2 :=
  fun _ => statusInv_closed_none st2 hs ha

lemma condInv_pending_ne (st2 : SMState) (h : st2.pendingConnects ≠ []) :
    CondStatusInv st2 := by
  intro hidle
  rw [authIdle_false_of_pending st2 h] at hidle
  exact absurd hidle (by simp)

lemma condInv_connecting (st2 : SMState) (p : ProcId)
    (h : st2.authenticated = some ⟨p, ProcPhase.connecting⟩) :
    CondStatusInv st2 := by
  intro hidle
  rw [authIdle_false_of_connecting st2 p h] at hidle
  exact absurd hidle (by simp)

lemma condInv_authenticate (st : SMState) (c : WebAPICredentials) (n : ProcId)
    (h : CondStatusInv st) : CondStatusInv (authenticate st c n).state := by
  unfold authenticate
  split
  · exact h
  · split
    · exact h
    · split
      · exact h
      · unfold authenticateStartConnect
        dsimp only
        apply condInv_pending_ne
        simp

lemma condInv_authenticateResume (st : SMState) (h : CondStatusInv st) :
    CondStatusInv (authenticateResume st).1 := by
  unfold authenticateResume
  split
  · exact h
  · exact condInv_connecting _ _ rfl

lemma condInv_applyAuthSuccess (st : SMState) (p : ProcId)
    (h : CondStatusInv st) : CondStatusInv (applyAuthSuccess st p).1 := by
  unfold applyAuthSuccess
  split
  · intro _
    unfold StatusInv holdsConnected
    constructor
    · intro _
      rw [setStatus_fst_authenticated]
      rfl
    · intro _
      exact setStatus_fst_status _ _
  · exact h

lemma condInv_authenticateOnFailure (st : SMState) (p : ProcId)
    (e : ConnectionError) (h : CondStatusInv st) :
    CondStatusInv (authenticateOnFailure st p e).state := by
  by_cases hcur : isCurrentAuth st p = true
  · have hfields := dropAuthenticated_fst st p hcur
    have hclosed := condInv_closed_none (dropAuthenticated st p).1
      hfields.1 hfields.2.1
    cases e with
    | http code =>
        rw [authenticateOnFailure_char st p code hcur]
        split
        · exact hclosed
        · split
          · exact hclosed
          · split
            · exact condInv_of_eq _ _ hclosed rfl rfl rfl
            · exact hclosed
    | generic =>
        unfold authenticateOnFailure
        rw [hcur, if_neg (by decide)]
        dsimp only
        exact hclosed
  · have hfalse : isCurrentAuth st p = false := by
      simpa using hcur
    unfold authenticateOnFailure
    rw [hfalse, if_pos (by decide)]
    exact h

lemma condInv_authenticateOnClose (st : SMState) (p : ProcId) (code : Int)
    (h : CondStatusInv st) :
    CondStatusInv (authenticateOnClose st p code).state := by
  by_cases hcur : isCurrentAuth st p = true
  · have hfields := dropAuthenticated_fst st p hcur
    have hclosed := condInv_closed_none (dropAuthenticated st p).1
      hfields.1 hfields.2.1
    rw [authenticateOnClose_char st p code hcur]
    split
    · exact hclosed
    · split
      · exact hclosed
      · exact hclosed
  · have hfalse : isCurrentAuth st p = false := by
      simpa using hcur
    unfold authenticateOnClose
    rw [hfalse, if_pos (by decide)]
    exact h

lemma condInv_getUnauthenticatedResource (st : SMState) (n : ProcId)
    (h : CondStatusInv st) :
    CondStatusInv (getUnauthenticatedResource st n).state := by
  unfold getUnauthenticatedResource
  split
  · exact h
  · split
    · exact h
    · exact condInv_of_eq _ _ h rfl rfl rfl

lemma condInv_dropUnauthenticated (st : SMState) (p : ProcId)
    (h : CondStatusInv st) : CondStatusInv (dropUnauthenticated st p) := by
  unfold dropUnauthenticated
  split
  · exact condInv_of_eq _ _ h rfl rfl rfl
  · exact h

lemma condInv_dropAuthIfAny (st : SMState) (h : CondStatusInv st) :
    CondStatusInv (dropAuthIfAny st) := by
  unfold dropAuthIfAny
  split
  · next ap heq =>
      have hcur : isCurrentAuth st ap.id = true := by
        unfold isCurrentAuth
        rw [heq]
        simp
      have hfields := dropAuthenticated_fst st ap.id hcur
      exact condInv_closed_none _ hfields.1 hfields.2.1
  · exact h

lemma condInv_applyStep (st : SMState) (s : ManagerStep)
    (h : CondStatusInv st) : CondStatusInv (applyStep st s) := by
  cases s with
  | callAuthenticate c n => exact condInv_authenticate st c n h
  | authConnectResume => exact condInv_authenticateResume st h
  | authSuccess p => exact condInv_applyAuthSuccess st p h
  | authFailure p e => exact condInv_authenticateOnFailure st p e h
  | authSocketClose p code => exact condInv_authenticateOnClose st p code h
  | callGetUnauthenticated n => exact condInv_getUnauthenticatedResource st n h
  | unauthSocketClose p => exact condInv_dropUnauthenticated st p h
  | callRegisterHandler hh =>
      exact condInv_of_eq _ _ h (registerRequestHandler_fields st hh).1
        (registerRequestHandler_fields st hh).2.1
        (registerRequestHandler_fields st hh).2.2.2
  | callUnregisterHandler hh => exact condInv_of_eq _ _ h rfl rfl rfl
  | incomingRequest req =>
      exact condInv_of_eq _ _ h (queueOrHandleRequest_fields st req).1
        (queueOrHandleRequest_fields st req).2.1
        (queueOrHandleRequest_fields st req).2.2.2.2
  | callLogout =>
      exact condInv_of_eq _ _ (condInv_dropAuthIfAny st h) rfl rfl rfl
  | callReconnect n =>
      have h1 : CondStatusInv (dropAuthIfAny st) := condInv_dropAuthIfAny st h
      have h2 : CondStatusInv (dropUnauthIfAny (dropAuthIfAny st)) := by
        unfold dropUnauthIfAny
        split
        · exact condInv_dropUnauthenticated _ _ h1
        · exact h1
      show CondStatusInv (applyReconnectMethod st n)
      unfold applyReconnectMethod reauthIfCredentials
      split
      · exact condInv_authenticate _ _ n h2
      · exact h2
  | remoteExpiration => exact condInv_of_eq _ _ h rfl rfl rfl

/-- C5 counterexample: the claimed equivalence — at every reachable
state, status OPEN iff the authenticated process holds a connected
resource — fails at two concrete reachable states.  In
`c5PendingState` an `authenticate` call with new credentials is
suspended at the proxy-agent await after `setStatus(CONNECTING)`
(line 346) and before replacing the process (lines 366 to 368), so the
status is CONNECTING while the old connected resource still occupies
the slot.  In `c5SupersededState` a suspended call resumed after a
newer attempt had already connected, so the status is OPEN while the
slot holds a not-yet-connected process. -/
theorem c5_counterexample :
    (Reachable c5PendingState ∧
     c5PendingState.status = SocketStatus.CONNECTING ∧
     holdsConnected c5PendingState = true ∧
     ¬ StatusInv c5PendingState) ∧
    (Reachable c5SupersededState ∧
     c5SupersededState.status = SocketStatus.OPEN ∧
     holdsConnected c5SupersededState = false ∧
     ¬ StatusInv c5SupersededState) := by
  constructor
  · refine ⟨?_, by decide, by decide, ?_⟩
    · exact Reachable.next _ _ (Reachable.next _ _
        (Reachable.next _ _ (Reachable.next _ _ Reachable.init)))
    · intro hinv
      have hiff : c5PendingState.status = SocketStatus.OPEN ↔
          holdsConnected c5PendingState = true := hinv
      have h1 := hiff.mpr (by decide)
      exact absurd h1 (by decide)
  · refine ⟨?_, by decide, by decide, ?_⟩
    · exact Reachable.next _ _ (Reachable.next _ _
        (Reachable.next _ _ (Reachable.next _ _
          (Reachable.next _ _ Reachable.init))))
    · intro hinv
      have hiff : c5SupersededState.status = SocketStatus.OPEN ↔
          holdsConnected c5SupersededState = true := hinv
      have h1 := hiff.mp (by decide)
      exact absurd h1 (by decide)

/-- Every reachable state satisfies the conditional status invariant. -/
lemma condInv_reachable (st : SMState) (h : Reachable st) : CondStatusInv st := by
  induction h with
  | init =>
      intro _
      unfold StatusInv holdsConnected initialState
      simp
  | next st2 s _ ih => exact condInv_applyStep st2 s ih

/-- C5 (amended): at every reachable state of the manager in which no
authenticated connection attempt is in flight (`authIdle`: no
`authenticate` call suspended between its `setStatus(CONNECTING)` and
its replacement of the process slot, and the stored process, if any,
has resolved its result), SocketStatus is OPEN if and only if the
authenticated connection process holds a successfully-connected
resource, and in every other such state the status is CLOSED or
CONNECTING.  During the excluded in-flight windows the equivalence can
fail, as `c5_counterexample` exhibits. -/
theorem c5_amended_status_invariant (st : SMState) (h : Reachable st)
    (hidle : authIdle st = true) :
    StatusInv st ∧
    (holdsConnected st = false →
      st.status = SocketStatus.CLOSED ∨ st.status = SocketStatus.CONNECTING) := by
  have hs := condInv_reachable st h hidle
  refine ⟨hs, ?_⟩
  intro hfalse
  cases hq : st.status with
  | CLOSED => exact Or.inl rfl
  | CONNECTING => exact Or.inr rfl
  | OPEN =>
      have hiff : st.status = SocketStatus.OPEN ↔ holdsConnected st = true := hs
      have h3 := hiff.mp hq
      rw [hfalse] at h3
      exact absurd h3 (by simp)

/-- Witness for the amended C5: the completed successful connection is
reachable, satisfies `authIdle`, and the invariant holds there. -/
theorem c5_witness :
    authIdle c5WitnessState = true ∧
    (StatusInv c5WitnessState ∧
     (holdsConnected c5WitnessState = false →
       c5WitnessState.status = SocketStatus.CLOSED ∨
         c5WitnessState.status = SocketStatus.CONNECTING)) :=
  ⟨by decide,
   c5_amended_status_invariant c5WitnessState
     (Reachable.next _ _ (Reachable.next _ _ (Reachable.next _ _ Reachable.init)))
     (by decide)⟩

end SocketManagerSpec
